import Mathlib

/-!
# fap-news: verification of the collection-to-publication pipeline

Shallow Lean embeddings of the core Python functions of the fap-news bot:

* the idempotency ledger (`src/db.py`: `mark_published`, `is_published`),
* the bounded publish queue and its retry logic (`src/bot.py`:
  `BotState.post_queue`, `NewsBot.process_post_queue`),
* the priority selector (`src/bot.py`: `NewsBot._select_items_by_priority`,
  `NewsBot.get_source_priority`),
* the smart deduplicator (`src/smart_deduplicator.py`), including a model
  of Python difflib's `SequenceMatcher.ratio`,
* the importance analyzer (`src/news_importance_analyzer.py`),
* the freshness/urgency gate (`src/ai_summarizer.py`: `check_urgency`,
  `check_news_freshness`), with the external AI call as an oracle.

Machine text is modelled over `List Char`/`String`, scores over `ℚ`.
-/

namespace FapNews

/-! ## Python string primitives

The program lowercases, strips and searches text whose alphabet is ASCII
plus the Cyrillic block (all keyword sets below).  The helpers here model
CPython `str` semantics on that alphabet.
-/

/-- Python `str.lower` on one character, for ASCII letters and the
Cyrillic block (`А`–`Я` maps to `а`–`я`, `Ё` to `ё`). -/
def lowerChar (c : Char) : Char :=
  if 0x41 ≤ c.toNat ∧ c.toNat ≤ 0x5A then Char.ofNat (c.toNat + 0x20)
  else if 0x410 ≤ c.toNat ∧ c.toNat ≤ 0x42F then Char.ofNat (c.toNat + 0x20)
  else if c.toNat = 0x401 then Char.ofNat 0x451
  else c

/-- Python `str.upper` on one character, inverse alphabet of `lowerChar`. -/
def upperChar (c : Char) : Char :=
  if 0x61 ≤ c.toNat ∧ c.toNat ≤ 0x7A then Char.ofNat (c.toNat - 0x20)
  else if 0x430 ≤ c.toNat ∧ c.toNat ≤ 0x44F then Char.ofNat (c.toNat - 0x20)
  else if c.toNat = 0x451 then Char.ofNat 0x401
  else c

/-- Python `str.lower`. -/
def pyLower (s : String) : String := ⟨s.toList.map lowerChar⟩

/-- Python `str.upper`. -/
def pyUpper (s : String) : String := ⟨s.toList.map upperChar⟩

/-- Python `pat in hay` on strings: substring containment. -/
def pySubstr (pat hay : String) : Bool :=
  hay.toList.tails.any (fun t => pat.toList.isPrefixOf t)

/-- Python `\s` / `str.split()` whitespace. -/
def pyIsSpace (c : Char) : Bool :=
  c == ' ' || c == '\t' || c == '\n' || c == '\r' || c.toNat == 0x0B || c.toNat == 0x0C

/-- Python regex `\w` on the alphabets this program processes
(ASCII alphanumerics, underscore, and the Cyrillic block). -/
def pyIsWordChar (c : Char) : Bool :=
  c.isAlphanum || c == '_' || (0x400 ≤ c.toNat && c.toNat ≤ 0x4FF)

/-- Python `str.strip()`. -/
def pyStrip (s : String) : String :=
  ⟨((s.toList.dropWhile pyIsSpace).reverse.dropWhile pyIsSpace).reverse⟩

/-- Whitespace-separated words of a character list, as in Python
`str.split()` with no argument (runs of whitespace, empties dropped). -/
def pyWords (l : List Char) : List (List Char) :=
  (l.splitOnP pyIsSpace).filter (fun w => !w.isEmpty)

/-- Model of `re.sub(r'\s+', ' ', text).strip()`: collapse whitespace runs to a
single space and strip the ends. -/
def collapseWsStrip (l : List Char) : List Char :=
  List.intercalate [' '] (pyWords l)

/-- One pass of `re.sub(r'<[^>]+>', '', text)`: on `'<'`, drop through the
first following `'>'` when at least one character stands between them. -/
def stripHtmlAux : ℕ → List Char → List Char
  | 0, l => l
  | _ + 1, [] => []
  | fuel + 1, c :: rest =>
    if c = '<' then
      let inside := rest.takeWhile (fun d => d != '>')
      let after := rest.dropWhile (fun d => d != '>')
      if 1 ≤ inside.length ∧ after ≠ [] then stripHtmlAux fuel after.tail
      else c :: stripHtmlAux fuel rest
    else c :: stripHtmlAux fuel rest

/-- Model of `re.sub(r'<[^>]+>', '', text)`. -/
def stripHtml (l : List Char) : List Char := stripHtmlAux l.length l

/-! ## Idempotency ledger (`src/db.py`)

The `published` table has `UNIQUE(news_id, source)`; `mark_published`
issues `INSERT OR IGNORE` and reports through `cursor.rowcount` whether a
row was actually inserted.  The table is modelled as a row list.
-/

/-- One row of the `published` table. -/
structure PublishedRow where
  news_id : String
  url : String
  source : String
  published_at : String
deriving DecidableEq, Repr

/-- The `published` table. -/
abbrev Ledger := List PublishedRow

/-- Model of `db.is_published`: `SELECT 1 FROM published WHERE news_id = ? AND source = ?`. -/
def is_published (db : Ledger) (news_id source : String) : Bool :=
  db.any (fun r => r.news_id == news_id && r.source == source)

/-- Model of `db.mark_published`: `INSERT OR IGNORE` under `UNIQUE(news_id, source)`;
returns whether a row was inserted, and the table afterwards. -/
def mark_published (db : Ledger) (news_id url source published_at : String) :
    Bool × Ledger :=
  if db.any (fun r => r.news_id == news_id && r.source == source) then (false, db)
  else (true, db ++ [⟨news_id, url, source, published_at⟩])

/-! ## Publish queue (`src/bot.py`)

`BotState.post_queue` is a `deque(maxlen=50)`; `process_post_queue` pops
one entry, publishes it and, on failure, appends it back only while the
queue is below its bound.
-/

/-- Model of `deque.append` with `maxlen`: when full, the leftmost entry is evicted. -/
def deque_append (maxlen : ℕ) (q : List α) (x : α) : List α :=
  if q.length < maxlen then q ++ [x]
  else (q ++ [x]).drop (q.length + 1 - maxlen)

/-- Model of `NewsBot.process_post_queue` on the queue: pop the front entry, try to
publish it (`publish_ok` is the sink outcome for this tick); on failure
re-append it while the queue is below `maxlen`.  Ledger marking and
counters are outside the queue state. -/
def process_post_queue (maxlen : ℕ) (publish_ok : α → Bool) (q : List α) : List α :=
  match q with
  | [] => q
  | entry :: rest =>
    if publish_ok entry then rest
    else if rest.length < maxlen then rest ++ [entry]
    else rest

/-! ## Item model and priority selector (`src/parser.py`, `src/bot.py`) -/

/-- Model of `parser.NewsItem`. -/
structure NewsItem where
  id : String
  title : String
  link : String
  summary : String
  source : String
  published_at : String
  tag : String
deriving DecidableEq, Repr

/-- One entry of the `sources` list in the config (name plus optional
explicit `priority`). -/
structure SourceEntry where
  name : String
  priority : Option ℤ
deriving Repr

/-- The slice of the configuration that `get_source_priority` and
`_select_items_by_priority` read. -/
structure PriorityConfig where
  sources : List SourceEntry
  high_priority : List String
  medium_priority : List String
  low_priority : List String
  max_sources_per_cycle : ℕ

/-- Model of `NewsBot.get_source_priority`: explicit per-source value first, then the
`source_priority` name lists, else medium (2). -/
def get_source_priority (config : PriorityConfig) (source_name : String) : ℤ :=
  match config.sources.find? (fun s => s.name == source_name) with
  | some s => s.priority.getD 2
  | none =>
    if source_name ∈ config.high_priority then 3
    else if source_name ∈ config.medium_priority then 2
    else if source_name ∈ config.low_priority then 1
    else 2

/-- Key order of `defaultdict` grouping: sources in order of first
occurrence in the item list. -/
def first_occurrence_keys (l : List String) : List String :=
  l.foldl (fun acc s => if s ∈ acc then acc else acc ++ [s]) []

/-- Stable insertion for a descending sort: `x` goes after every element of
at least its priority. -/
def insert_desc (pr : String → ℤ) (x : String) : List String → List String
  | [] => [x]
  | y :: ys => if pr x ≤ pr y then y :: insert_desc pr x ys else x :: y :: ys

/-- Python `sorted(keys, key=priority, reverse=True)`: stable descending
sort by priority. -/
def sort_by_priority_desc (pr : String → ℤ) (l : List String) : List String :=
  l.foldl (fun acc x => insert_desc pr x acc) []

/-- The selection loop of `_select_items_by_priority`: walk the sorted
sources, take the first item of each non-empty group, stop at
`max_sources` groups. -/
def select_go (max_sources : ℕ) (group : String → List NewsItem) :
    List String → ℕ → List NewsItem
  | [], _ => []
  | s :: rest, used =>
    if max_sources ≤ used then []
    else
      match group s with
      | [] => select_go max_sources group rest used
      | item :: _ => item :: select_go max_sources group rest (used + 1)

/-- Model of `NewsBot._select_items_by_priority`. -/
def select_items_by_priority (config : PriorityConfig) (items : List NewsItem) :
    List NewsItem :=
  let keys := first_occurrence_keys (items.map (fun it => it.source))
  let group := fun s => items.filter (fun it => it.source == s)
  let sorted_sources := sort_by_priority_desc (get_source_priority config) keys
  select_go config.max_sources_per_cycle group sorted_sources 0

/-! ## Importance analyzer (`src/news_importance_analyzer.py`)

The keyword sets are transcribed verbatim from the source; Python `set`
literals are listed in literal order (duplicates collapsed, as a set
does).  Matching is substring containment against the lowercased
`title + " " + content`, counting matching distinct keywords.
-/

/-- Lexical urgency fast-path keyword list of AISummarizer.check_urgency (src/ai_summarizer.py). -/
def urgency_keywords : List String := [
  "–≤–∑—Ä—ã–≤", "–≤–∑—Ä—ã–≤—ã", "–≤–∑–æ—Ä–≤–∞–ª—Å—è", "–≤–∑–æ—Ä–≤–∞–ª–∏—Å—å", "explosion", "explosions",
  "bomb", "bombs", "—Å—Ç—Ä–µ–ª—å–±–∞", "—Å—Ç—Ä–µ–ª—è—é—Ç", "shooting", "gunfire", "attack", "attacks",
  "terrorist", "terrorism", "—É–±–∏–π—Å—Ç–≤–æ", "—É–±–∏—Ç", "—É–±–∏—Ç—ã", "murder", "killed",
  "death", "deaths", "casualties", "–∞–≤–∞—Ä–∏—è", "–∫–∞—Ç–∞—Å—Ç—Ä–æ—Ñ–∞", "–∫—Ä—É—à–µ–Ω–∏–µ",
  "crash", "accident", "disaster", "emergency", "–≤–æ–π–Ω–∞", "war", "–≤–æ–µ–Ω–Ω—ã–µ –¥–µ–π—Å—Ç–≤–∏—è",
  "military action", "–±–æ–µ–≤—ã–µ –¥–µ–π—Å—Ç–≤–∏—è", "combat", "–Ω–∞–ø–∞–¥–µ–Ω–∏–µ", "attack",
  "–∞—Ç–∞–∫–∞", "strike", "—É–¥–∞—Ä", "bombing", "–±–æ–º–±–∞—Ä–¥–∏—Ä–æ–≤–∫–∞", "–≤—Ç–æ—Ä–∂–µ–Ω–∏–µ",
  "invasion", "–æ–∫–∫—É–ø–∞—Ü–∏—è", "occupation", "–±–ª–æ–∫–∞–¥–∞", "blockade", "–ø–µ—Ä–µ–≤–æ—Ä–æ—Ç",
  "coup", "—Ä–µ–≤–æ–ª—é—Ü–∏—è", "revolution", "–º—è—Ç–µ–∂", "rebellion", "–≤–æ—Å—Å—Ç–∞–Ω–∏–µ",
  "uprising", "–æ—Ç—Å—Ç–∞–≤–∫–∞", "resignation", "–∏–º–ø–∏—á–º–µ–Ω—Ç", "impeachment", "–∞—Ä–µ—Å—Ç",
  "arrest", "–∑–∞–¥–µ—Ä–∂–∞–Ω–∏–µ", "—Å–∞–Ω–∫—Ü–∏–∏", "sanctions", "—ç–º–±–∞—Ä–≥–æ", "embargo",
  "–±–ª–æ–∫–∏—Ä–æ–≤–∫–∞", "blockade", "–∑–µ–º–ª–µ—Ç—Ä—è—Å–µ–Ω–∏–µ", "earthquake", "—Ü—É–Ω–∞–º–∏",
  "tsunami", "–Ω–∞–≤–æ–¥–Ω–µ–Ω–∏–µ", "flood", "–ø–æ–∂–∞—Ä", "fire", "—É—Ä–∞–≥–∞–Ω", "hurricane",
  "—Ç–æ—Ä–Ω–∞–¥–æ", "tornado", "–∏–∑–≤–µ—Ä–∂–µ–Ω–∏–µ", "eruption", "–∫–∏–±–µ—Ä–∞—Ç–∞–∫–∞", "cyberattack",
  "—Ö–∞–∫–µ—Ä—ã", "hackers", "—É—Ç–µ—á–∫–∞ –¥–∞–Ω–Ω—ã—Ö", "data breach", "–æ—Ç–∫–ª—é—á–µ–Ω–∏–µ",
  "outage", "—Å–±–æ–π", "failure", "–∫—Ä–∏–∑–∏—Å", "crisis", "–∫—Ä–∞—Ö", "crash", "–æ–±–≤–∞–ª",
  "collapse", "–¥–µ—Ñ–æ–ª—Ç", "default", "–±–∞–Ω–∫—Ä–æ—Ç—Å—Ç–≤–æ", "bankruptcy", "—Ä–µ—Ü–µ—Å—Å–∏—è",
  "recession", "–¥–µ–ø—Ä–µ—Å—Å–∏—è", "depression", "–∏–Ω—Ñ–ª—è—Ü–∏—è", "inflation", "–¥–∏–ø–ª–æ–º–∞—Ç–∏—á–µ—Å–∫–∏–π –∫—Ä–∏–∑–∏—Å",
  "diplomatic crisis", "–∫–æ–Ω—Ñ–ª–∏–∫—Ç", "conflict", "—ç—Å–∫–∞–ª–∞—Ü–∏—è", "escalation", "—É–≥—Ä–æ–∑–∞",
  "threat", "–ø—Ä–µ–¥—É–ø—Ä–µ–∂–¥–µ–Ω–∏–µ", "warning", "–æ–ø–∞—Å–Ω–æ—Å—Ç—å", "danger"
]

/-- Time-reference keyword list of AISummarizer.check_news_freshness (src/ai_summarizer.py). -/
def time_keywords : List String := [
  "—á–∞—Å", "—á–∞—Å–∞", "—á–∞—Å–æ–≤", "hour", "hours", "–º–∏–Ω—É—Ç", "–º–∏–Ω—É—Ç—ã", "minute",
  "minutes", "—Å–µ–≥–æ–¥–Ω—è", "today", "–≤—á–µ—Ä–∞", "yesterday", "–∑–∞–≤—Ç—Ä–∞", "tomorrow",
  "—É—Ç—Ä–æ–º", "morning", "–¥–Ω–µ–º", "afternoon", "–≤–µ—á–µ—Ä–æ–º", "evening", "–Ω–æ—á—å—é",
  "night", "—Å–µ–π—á–∞—Å", "now", "—Ç–æ–ª—å–∫–æ —á—Ç–æ", "just now", "–Ω–µ–¥–∞–≤–Ω–æ", "recently",
  "—è–Ω–≤–∞—Ä—è", "—Ñ–µ–≤—Ä–∞–ª—è", "–º–∞—Ä—Ç–∞", "–∞–ø—Ä–µ–ª—è", "–º–∞—è", "–∏—é–Ω—è", "–∏—é–ª—è",
  "–∞–≤–≥—É—Å—Ç–∞", "—Å–µ–Ω—Ç—è–±—Ä—è", "–æ–∫—Ç—è–±—Ä—è", "–Ω–æ—è–±—Ä—è", "–¥–µ–∫–∞–±—Ä—è", "january",
  "february", "march", "april", "may", "june", "july", "august", "september", "october", "november",
  "december", "–ø–æ–Ω–µ–¥–µ–ª—å–Ω–∏–∫", "–≤—Ç–æ—Ä–Ω–∏–∫", "—Å—Ä–µ–¥–∞", "—á–µ—Ç–≤–µ—Ä–≥", "–ø—è—Ç–Ω–∏—Ü–∞",
  "—Å—É–±–±–æ—Ç–∞", "–≤–æ—Å–∫—Ä–µ—Å–µ–Ω—å–µ", "monday", "tuesday", "wednesday", "thursday", "friday",
  "saturday", "sunday", "1", "2", "3", "4", "5", "6", "7", "8", "9", "10", "11", "12", "13",
  "14", "15", "16", "17", "18", "19", "20", "21", "22", "23", "24", "30", "45", "60", "90", "120",
  "180", "240", "300", "360", "480", "720", "1440"
]

/-- Stop-word set of SmartDeduplicator.extract_key_phrases (src/smart_deduplicator.py); a Python set literal, listed here in literal order. -/
def stop_words : List String := [
  "и", "в", "на", "с", "по", "для", "от", "до", "из", "к", "у", "о", "об", "за", "при", "the",
  "and", "in", "on", "at", "to", "for", "of", "with", "by", "from", "up", "about", "a", "an",
  "is", "are", "was", "were", "be", "been", "have", "has", "had", "do", "does", "did", "will",
  "would", "could", "should", "may", "might", "can", "this", "that", "these", "those", "объявил",
  "объявила", "объявили", "заявил", "заявила", "заявили", "сообщил", "сообщила", "сообщили"
]

/-- Keyword set NewsImportanceAnalyzer.critical_keywords (src/news_importance_analyzer.py); a Python set literal. -/
def critical_keywords : List String := [
  "россия", "russia", "российский", "russian", "рф", "rf", "путин", "putin", "украина", "ukraine",
  "украинский", "ukrainian", "зеленский", "zelensky", "донбасс", "donbass", "донецк", "donetsk",
  "луганск", "luhansk", "крым", "crimea", "херсон", "kherson", "запорожье", "zaporizhzhia", "мариуполь",
  "mariupol", "киев", "kyiv", "киевский", "kiev", "харьков", "kharkiv", "одесса", "odessa", "специальная операция",
  "special operation", "сво", "svo", "война", "war", "военные действия", "military action", "боевые действия",
  "combat", "вторжение", "invasion", "атака", "attack", "удар", "strike", "бомбардировка", "bombing",
  "взрыв", "explosion", "взрывы", "explosions", "терроризм", "terrorism", "террорист", "terrorist",
  "переворот", "coup", "революция", "revolution", "импичмент", "impeachment", "отставка", "resignation",
  "арест", "arrest", "задержание", "detention", "санкции", "sanctions", "эмбарго", "embargo",
  "блокада", "blockade", "землетрясение", "earthquake", "цунами", "tsunami", "наводнение", "flood",
  "ураган", "hurricane", "торнадо", "tornado", "извержение", "eruption", "пожар", "fire", "катастрофа",
  "disaster", "авария", "accident", "крах", "crash", "обвал", "collapse", "дефолт", "default",
  "банкротство", "bankruptcy", "рецессия", "recession", "кризис", "crisis", "дипломатический кризис",
  "diplomatic crisis", "конфликт", "conflict", "эскалация", "escalation", "угроза", "threat",
  "опасность", "danger", "кибератака", "cyberattack", "хакеры", "hackers", "утечка данных", "data breach",
  "отключение", "outage", "сбой", "failure", "взлом", "hack"
]

/-- Keyword set NewsImportanceAnalyzer.high_priority_keywords (src/news_importance_analyzer.py); a Python set literal. -/
def high_priority_keywords : List String := [
  "президент", "president", "премьер", "prime minister", "министр", "minister", "выборы", "election",
  "elections", "голосование", "voting", "референдум", "referendum", "парламент", "parliament",
  "конгресс", "congress", "сенат", "senate", "инфляция", "inflation", "безработица", "unemployment",
  "валюта", "currency", "нефть", "oil", "газ", "gas", "энергетика", "energy", "рынок", "market",
  "нато", "nato", "оон", "un", "united nations", "евросоюз", "eu", "european union", "саммит",
  "summit", "переговоры", "negotiations", "дипломатия", "diplomacy", "протесты", "protests",
  "митинги", "rallies", "демонстрации", "demonstrations", "забастовка", "strike", "бунт", "riot",
  "беспорядки", "unrest"
]

/-- Keyword set NewsImportanceAnalyzer.important_entities (src/news_importance_analyzer.py); a Python set literal. -/
def important_entities : List String := [
  "путин", "putin", "зеленский", "zelenskyy", "zelensky", "байден", "biden", "трамп", "trump",
  "си цзиньпин", "xi jinping", "макрон", "macron", "шольц", "scholz", "сунак", "sunak", "лукашенко",
  "lukashenko", "кремль", "kremlin", "белый дом", "white house", "пентагон", "pentagon", "фсб",
  "fsb", "цру", "cia", "фбр", "fbi", "нса", "nsa", "европарламент", "european parliament", "бундестаг",
  "bundestag", "украина", "ukraine", "россия", "russia", "сша", "usa", "us", "america", "китай",
  "china", "европа", "europe", "нато", "nato", "ес", "eu"
]

/-- Keyword set NewsImportanceAnalyzer.importance_numbers (src/news_importance_analyzer.py); a Python set literal. -/
def importance_numbers : List String := [
  "миллион", "million", "миллиард", "billion", "тысяча", "thousand", "процент", "percent", "%",
  "доллар", "dollar", "евро", "euro", "рубль", "ruble", "юань", "yuan"
]

/-- Keyword set NewsImportanceAnalyzer.uninteresting_us_keywords (src/news_importance_analyzer.py); a Python set literal. -/
def uninteresting_us_keywords : List String := [
  "family", "семья", "wife", "жена", "husband", "муж", "son", "сын", "daughter", "дочь", "mother",
  "мать", "father", "отец", "brother", "брат", "sister", "сестра", "wedding", "свадьба", "divorce",
  "развод", "marriage", "брак", "celebrity", "знаменитость", "actor", "актер", "actress", "актриса",
  "singer", "певец", "movie", "фильм", "tv show", "телешоу", "reality show", "реалити-шоу", "oscar",
  "оскар", "grammy", "грэмми", "award", "награда", "basketball", "баскетбол", "football", "футбол",
  "baseball", "бейсбол", "hockey", "хоккей", "nfl", "nba", "mlb", "nhl", "playoff", "плей-офф",
  "championship", "чемпионат", "local", "местный", "city council", "городской совет", "mayor",
  "мэр", "governor", "губернатор", "state", "штат", "county", "округ", "district", "район", "robbery",
  "ограбление", "theft", "кража", "vandalism", "вандализм", "arrest", "арест", "suspect", "подозреваемый",
  "wanted", "разыскивается"
]

/-- Local keyword list ru_ua_keywords inside NewsImportanceAnalyzer.analyze_importance (src/news_importance_analyzer.py). -/
def ru_ua_keywords : List String := [
  "россия", "russia", "украина", "ukraine", "путин", "putin", "зеленский", "zelensky", "донбасс",
  "donbass", "крым", "crimea", "специальная операция", "special operation"
]

/-- Local keyword list family_keywords inside NewsImportanceAnalyzer.analyze_importance (src/news_importance_analyzer.py). -/
def family_keywords : List String := [
  "family", "семья", "wedding", "свадьба", "divorce", "развод", "anniversary", "годовщина"
]

/-- Urgency-marker word list inline in NewsImportanceAnalyzer.analyze_importance (src/news_importance_analyzer.py). -/
def breaking_markers : List String := ["breaking", "urgent", "срочно", "экстренно"]

/-- Number of keywords of the set that occur in the text. -/
def count_matches (keywords : List String) (full_text : String) : ℕ :=
  (keywords.filter (fun k => pySubstr k full_text)).length

/-- Model of `news_importance_analyzer.ImportanceScore` (the `factors` log strings
are not modelled). -/
structure ImportanceScore where
  score : ℚ
  category : String
deriving Repr

/-- The additive score chain of `NewsImportanceAnalyzer.analyze_importance`
over the lowercased `title + " " + content` (and the length of `content`),
before the final `min(score, 1.0)` clamp. -/
def importance_raw_score (full_text : String) (content_length : ℕ) : ℚ :=
  let critical_matches := count_matches critical_keywords full_text
  let s1 : ℚ :=
    if 0 < critical_matches then
      (if 2 ≤ critical_matches then 1/2 + 1/5 else 1/2)
    else 0
  let ru_ua_matches := count_matches ru_ua_keywords full_text
  let s2 := s1 + (if 0 < ru_ua_matches then 2/5 else 0)
  let uninteresting_matches := count_matches uninteresting_us_keywords full_text
  let s3 := s2 - (if 3 ≤ uninteresting_matches then 1/2 else 0)
  let family_matches := count_matches family_keywords full_text
  let s4 := s3 - (if 2 ≤ family_matches then 3/10 else 0)
  let high_priority_matches := count_matches high_priority_keywords full_text
  let s5 := s4 + (if 0 < high_priority_matches then 3/10 else 0)
  let entity_matches := count_matches important_entities full_text
  let s6 := s5 + (if 0 < entity_matches then 1/5 else 0)
  let number_matches := count_matches importance_numbers full_text
  let s7 := s6 + (if 0 < number_matches then 1/10 else 0)
  let s8 := s7 + (if 500 < content_length then 1/10 else 0)
  s8 + (if breaking_markers.any (fun w => pySubstr w full_text) then 1/5 else 0)

/-- The category thresholds of `analyze_importance`, applied to the
unclamped score. -/
def importance_category (score : ℚ) : String :=
  if 7/10 ≤ score then "critical"
  else if 1/2 ≤ score then "high"
  else if 3/10 ≤ score then "medium"
  else "low"

/-- Model of `NewsImportanceAnalyzer.analyze_importance`: additive keyword scoring
over the lowercased `title + " " + content`, category from the unclamped
score, returned score `min(score, 1.0)`. -/
def analyze_importance (title content : String) : ImportanceScore :=
  let full_text := pyLower (title ++ " " ++ content)
  let score := importance_raw_score full_text content.length
  ⟨min score 1, importance_category score⟩

/-- Model of `NewsImportanceAnalyzer.get_adaptive_length`.  Python computes
`base_length * 1.5` and `base_length * 0.8` in floating point (the result
is a `float` annotated as `int`); the model computes the same values
over `ℚ`. -/
def get_adaptive_length (importance : ImportanceScore) (base_length : ℚ) : ℚ :=
  if importance.category = "critical" then min (base_length * 2) 1200
  else if importance.category = "high" then min (base_length * (3/2)) 900
  else if importance.category = "medium" then base_length
  else max (base_length * (4/5)) 400

/-- Model of `NewsImportanceAnalyzer.should_include_details`. -/
def should_include_details (importance : ImportanceScore) : Bool :=
  importance.category == "critical" || importance.category == "high"

/-! ## difflib `SequenceMatcher` (Python stdlib, used by the deduplicator)

`SmartDeduplicator._calculate_similarity` calls
`SequenceMatcher(None, norm1, norm2).ratio()`.  The model below follows
CPython's `difflib` with `isjunk=None`: `b2j` maps each character of `b`
to its ascending positions, autojunk purges popular characters when
`len(b) >= 200`, `find_longest_match` runs the running-length table and
then extends the winner on both sides (with no junk set, the two junk
extension loops never fire), and `ratio` is `2*M / (len(a)+len(b))` for
`M` the total size of the recursively collected matching blocks.
-/

/-- Python slicing `l[lo:hi]`. -/
def slice (l : List α) (lo hi : ℕ) : List α := (l.take hi).drop lo

/-- Length of the longest common prefix of two character lists. -/
def commonPrefixLen : List Char → List Char → ℕ
  | a :: as, b :: bs => if a = b then commonPrefixLen as bs + 1 else 0
  | _, _ => 0

/-- Table `b2j`: ascending positions of `c` in `b`. -/
def b2j (b : List Char) (c : Char) : List ℕ :=
  (b.enum.filter (fun p => p.2 == c)).map Prod.fst

/-- Table `b2j` after the autojunk purge: for `len(b) >= 200`, characters with
more than `len(b) // 100 + 1` occurrences are dropped from the map. -/
def b2jPurged (b : List Char) (c : Char) : List ℕ :=
  let idxs := b2j b c
  if 200 ≤ b.length ∧ b.length / 100 + 1 < idxs.length then [] else idxs

/-- One row `i` of `find_longest_match`'s table: fold the positions `j` of
`a[i]` in `b`, building `newj2len` from the previous row `j2l` and
updating the best (leftmost-first) match. -/
def flmRow (i : ℕ) (j2l : ℕ → ℕ) (js : List ℕ) (best : ℕ × ℕ × ℕ) :
    (ℕ → ℕ) × (ℕ × ℕ × ℕ) :=
  js.foldl
    (fun st j =>
      let k := (if j = 0 then 0 else j2l (j - 1)) + 1
      let f := Function.update st.1 j k
      let b := if st.2.2.2 < k then (i + 1 - k, j + 1 - k, k) else st.2
      (f, b))
    ((fun _ => 0), best)

/-- Model of `SequenceMatcher.find_longest_match(alo, ahi, blo, bhi)` with
`isjunk=None`: the running-length table over rows `alo..ahi`, then the
non-junk extension of the winner to the left and to the right (the junk
extension loops never fire since the junk set is empty). -/
def find_longest_match (a b : List Char) (alo ahi blo bhi : ℕ) : ℕ × ℕ × ℕ :=
  let step :=
    (List.range' alo (ahi - alo)).foldl
      (fun st i =>
        let js := (b2jPurged b (a.getD i (Char.ofNat 0))).filter
          (fun j => decide (blo ≤ j) && decide (j < bhi))
        flmRow i st.1 js st.2)
      ((fun _ => 0), (alo, blo, 0))
  let bi := step.2.1
  let bj := step.2.2.1
  let k := step.2.2.2
  let e1 := commonPrefixLen (slice a alo bi).reverse (slice b blo bj).reverse
  let bi2 := bi - e1
  let bj2 := bj - e1
  let k2 := k + e1
  let e2 := commonPrefixLen (slice a (bi2 + k2) ahi) (slice b (bj2 + k2) bhi)
  (bi2, bj2, k2 + e2)

/-- Total size of the matching blocks of `a[alo:ahi]` against `b[blo:bhi]`:
the recursive divide of `get_matching_blocks` around each longest match.
`fuel` dominates the recursion depth. -/
def matchTotalAux (a b : List Char) : ℕ → ℕ → ℕ → ℕ → ℕ → ℕ
  | 0, _, _, _, _ => 0
  | fuel + 1, alo, ahi, blo, bhi =>
    let m := find_longest_match a b alo ahi blo bhi
    if m.2.2 = 0 then 0
    else
      matchTotalAux a b fuel alo m.1 blo m.2.1 + m.2.2 +
        matchTotalAux a b fuel (m.1 + m.2.2) ahi (m.2.1 + m.2.2) bhi

/-- Total matching-block size of two whole strings. -/
def matchTotal (a b : List Char) : ℕ :=
  matchTotalAux a b (a.length + b.length + 1) 0 a.length 0 b.length

/-- Model of `SequenceMatcher(None, s1, s2).ratio()`:
`2*M / (len(a)+len(b))`, and 1 when both strings are empty. -/
def seqMatchScore (s1 s2 : String) : ℚ :=
  let a := s1.toList
  let b := s2.toList
  if a.length + b.length = 0 then 1
  else (2 * matchTotal a b : ℚ) / (a.length + b.length)

/-! ## Smart deduplicator (`src/smart_deduplicator.py`) -/

/-- The slice of the `deduplication` config that `SmartDeduplicator` reads. -/
structure DedupConfig where
  similarity_threshold : ℚ
  title_weight : ℚ
  content_weight : ℚ

/-- Model of `SmartDeduplicator._normalize_text`: lowercase, strip HTML tags,
collapse whitespace, punctuation to spaces, collapse again. -/
def normalize_text (s : String) : String :=
  let t1 := s.toList.map lowerChar
  let t2 := stripHtml t1
  let t3 := collapseWsStrip t2
  let t4 := t3.map (fun c => if pyIsWordChar c || pyIsSpace c then c else ' ')
  ⟨collapseWsStrip t4⟩

/-- Model of `SmartDeduplicator._extract_key_phrases`: significant words (length
above 2, not stop words) of the normalized text, followed by their
bigrams and trigrams. -/
def extract_key_phrases (text : String) : List String :=
  let normalized := normalize_text text
  let words := (pyWords normalized.toList).map (fun w => (⟨w⟩ : String))
  let key_words := words.filter (fun w => decide (2 < w.length) && !stop_words.contains w)
  let bigrams := (key_words.zip key_words.tail).map (fun p => p.1 ++ " " ++ p.2)
  let trigrams := (key_words.zip (key_words.tail.zip key_words.tail.tail)).map
    (fun p => p.1 ++ " " ++ p.2.1 ++ " " ++ p.2.2)
  key_words ++ bigrams ++ trigrams

/-- Model of `SmartDeduplicator._calculate_similarity`:
`min(0.3 * sequence_ratio + 0.7 * jaccard, 1.0)` with the early returns of
the source (empty text, empty normalization, empty key-phrase set). -/
def calculate_similarity (text1 text2 : String) : ℚ :=
  if text1 = "" ∨ text2 = "" then 0
  else
    let norm1 := normalize_text text1
    let norm2 := normalize_text text2
    if norm1 = "" ∨ norm2 = "" then 0
    else
      let basic_similarity := seqMatchScore norm1 norm2
      let phrases1 := (extract_key_phrases text1).toFinset
      let phrases2 := (extract_key_phrases text2).toFinset
      if phrases1 = ∅ ∨ phrases2 = ∅ then basic_similarity
      else
        let inter := phrases1 ∩ phrases2
        let union := phrases1 ∪ phrases2
        let phrase_similarity : ℚ := if union ≠ ∅ then (inter.card : ℚ) / union.card else 0
        min (basic_similarity * (3/10) + phrase_similarity * (7/10)) 1

/-- Model of `SmartDeduplicator._generate_content_hash`: the Python code joins the
sorted key phrases of `normalized_title + " " + normalized_content` and
takes a truncated md5; md5 being a deterministic function of its input,
the model keeps the joined string itself (md5 truncation collisions are
ignored). -/
def generate_content_hash (item : NewsItem) : String :=
  let normalized_title := normalize_text item.title
  let normalized_content := normalize_text item.summary
  let key_phrases := extract_key_phrases (normalized_title ++ " " ++ normalized_content)
  String.intercalate " " (key_phrases.insertionSort (· ≤ ·))

/-- Model of `smart_deduplicator.SimilarityResult` (the `reason` log string is not
modelled). -/
structure SimilarityResult where
  similarity_score : ℚ
  is_duplicate : Bool

/-- The inner comparison of `find_duplicates`: title similarity weighted by
`title_weight`, plus summary similarity weighted by `content_weight` when
both items have a (truthy, i.e. non-empty) summary, else 0. -/
def item_pair_similarity (config : DedupConfig) (item other : NewsItem) : ℚ :=
  let title_similarity := calculate_similarity item.title other.title
  let content_similarity :=
    if item.summary ≠ "" ∧ other.summary ≠ "" then
      calculate_similarity item.summary other.summary
    else 0
  title_similarity * config.title_weight + content_similarity * config.content_weight

/-- Maximum pairwise similarity of `items[i]` against every other item of
the batch with a non-empty title (`max_similarity` of the source loop). -/
def max_similarity_against (config : DedupConfig) (items : List NewsItem)
    (i : ℕ) (item : NewsItem) : ℚ :=
  items.enum.foldl
    (fun m p =>
      if p.1 = i ∨ p.2.title = "" then m
      else max m (item_pair_similarity config item p.2))
    0

/-- The loop of `find_duplicates` over the enumerated batch, threading the
set of content hashes of the non-duplicates seen so far
(`_processed_hashes`, empty for the fresh instance each cycle creates). -/
def find_duplicates_go (config : DedupConfig) (items : List NewsItem) :
    List (ℕ × NewsItem) → List String → List SimilarityResult
  | [], _ => []
  | (i, item) :: rest, seen =>
    if item.title = "" ∨ (pyStrip item.title).length < 5 then
      ⟨0, false⟩ :: find_duplicates_go config items rest seen
    else
      let h := generate_content_hash item
      if h ∈ seen then ⟨1, true⟩ :: find_duplicates_go config items rest seen
      else
        let max_similarity := max_similarity_against config items i item
        let is_duplicate : Bool := decide (config.similarity_threshold ≤ max_similarity)
        let seen2 := if is_duplicate then seen else h :: seen
        ⟨max_similarity, is_duplicate⟩ :: find_duplicates_go config items rest seen2

/-- Model of `SmartDeduplicator.find_duplicates` on a fresh instance. -/
def find_duplicates (config : DedupConfig) (items : List NewsItem) :
    List SimilarityResult :=
  find_duplicates_go config items items.enum []

/-- Model of `SmartDeduplicator.filter_duplicates`: split the batch by the
`is_duplicate` flag of the zipped results. -/
def filter_duplicates (config : DedupConfig) (items : List NewsItem) :
    List NewsItem × List NewsItem :=
  if items = [] then ([], [])
  else
    let results := find_duplicates config items
    let z := items.zip results
    ((z.filter (fun p => !p.2.is_duplicate)).map Prod.fst,
     (z.filter (fun p => p.2.is_duplicate)).map Prod.fst)

/-! ## Freshness/urgency gate (`src/ai_summarizer.py`)

`AISummarizer.check_urgency` and `check_news_freshness` wrap the external
Groq classifier.  `_call_groq_api` catches every exception internally and
returns `None` (also on rate limits and empty responses), so the external
call is modelled as an oracle `classifier : title → content → Option
response`; a classifier that raises on every call is the constant-`none`
oracle.  The response cache is an oracle `cache : title → content → kind
→ Option cached`; a cached empty string is falsy in Python and falls
through, like a miss, to the checks.  The prompt strings only carry
`title`/`content` to the oracle and are not modelled textually.  Both
functions also write the cache; the written state does not affect the
returned value of the call itself and is not modelled.
-/

/-- Model of `AISummarizer.check_urgency` (returned value): `False` when AI is
disabled; a non-empty cache hit decides; a lexical urgency keyword in the
lowercased `title + " " + content` returns `True` with no classifier
call; otherwise the classifier response must contain `"ДА"` uppercased. -/
def check_urgency (enabled : Bool) (cache : String → String → String → Option String)
    (classifier : String → String → Option String) (title content : String) : Bool :=
  if !enabled then false
  else
    let uncached :=
      let full_text := pyLower (title ++ " " ++ content)
      if urgency_keywords.any (fun k => pySubstr (pyLower k) full_text) then true
      else
        match classifier title content with
        | some response => pySubstr "ДА" (pyUpper response)
        | none => false
    match cache title content "urgency" with
    | some cached => if cached = "" then uncached else pyLower cached == "true"
    | none => uncached

/-- Model of `AISummarizer.check_news_freshness` (returned value): `True` when AI is
disabled; a non-empty cache hit decides; with no time-reference keyword in
the lowercased `title + " " + content` it is `True` with no classifier
call; otherwise `False` exactly when the classifier answers and the
uppercased, stripped response contains `"НЕТ"` or `"NO"` (no answer, and
unclear answers, default to fresh). -/
def check_news_freshness (enabled : Bool)
    (cache : String → String → String → Option String)
    (classifier : String → String → Option String) (title content : String) : Bool :=
  if !enabled then true
  else
    let uncached :=
      let full_text := pyLower (title ++ " " ++ content)
      if !time_keywords.any (fun k => pySubstr k full_text) then true
      else
        match classifier title content with
        | some response =>
          let response_upper := pyStrip (pyUpper response)
          if pySubstr "НЕТ" response_upper ∨ pySubstr "NO" response_upper then false
          else true
        | none => true
    match cache title content "freshness" with
    | some cached => if cached = "" then uncached else pyLower cached == "true"
    | none => uncached

/-! ## Theorems -/

set_option maxRecDepth 100000

/-- Default deduplication config of `NewsBot.process_once`
(`similarity_threshold` 0.7, `title_weight` 0.6, `content_weight` 0.4). -/
def default_dedup_config : DedupConfig := ⟨7/10, 3/5, 2/5⟩

/-- C1. The ledger is idempotent: marking the same `(id, source)` twice
leaves the table exactly as one mark does and the second call reports
`False`; the first call reports `True` exactly when the pair was not yet
recorded; after one successful mark `is_published` holds. -/
theorem C1_mark_published_idempotent (db : Ledger)
    (news_id url source published_at : String) :
    (mark_published (mark_published db news_id url source published_at).2
        news_id url source published_at).2 =
      (mark_published db news_id url source published_at).2 ∧
    (mark_published (mark_published db news_id url source published_at).2
        news_id url source published_at).1 = false ∧
    ((mark_published db news_id url source published_at).1 = true ↔
      is_published db news_id source = false) ∧
    is_published (mark_published db news_id url source published_at).2
      news_id source = true := by
  by_cases h : db.any (fun r => r.news_id == news_id && r.source == source)
  · simp [mark_published, is_published, h]
  · simp [mark_published, is_published, h, List.any_append]

/-- C3. The bounded queue: an append never leaves more than `maxlen`
entries; appending to a full queue (of positive bound) evicts the oldest
entry; three appends on a bound-2 queue keep the two newest entries. -/
theorem C3_queue_bound :
    (∀ (maxlen : ℕ) (q : List String) (x : String),
        (deque_append maxlen q x).length ≤ maxlen) ∧
    (∀ (maxlen : ℕ) (q : List String) (x : String),
        1 ≤ maxlen → q.length = maxlen →
        deque_append maxlen q x = q.tail ++ [x]) ∧
    deque_append 2 (deque_append 2 (deque_append 2 [] "a") "b") "c" = ["b", "c"] := by
  refine ⟨?_, ?_, by decide⟩
  · intro maxlen q x
    unfold deque_append
    have h : (q ++ [x]).length = q.length + 1 := by simp
    split
    · omega
    · simp only [List.length_drop, h]
      omega
  · intro maxlen q x h1 h2
    unfold deque_append
    have hq : q ≠ [] := by
      intro he
      rw [he] at h2
      simp at h2
      omega
    rw [if_neg (by omega)]
    have : q.length + 1 - maxlen = 1 := by omega
    rw [this]
    obtain ⟨y, q', rfl⟩ := List.exists_cons_of_ne_nil hq
    simp

/-- C3 witness: the bound and the eviction rule at a concrete full queue. -/
theorem C3_queue_bound_witness :
    (deque_append 2 ["a", "b"] "c").length ≤ 2 ∧
    deque_append 2 ["a", "b"] "c" = ["b", "c"] :=
  ⟨C3_queue_bound.1 2 ["a", "b"] "c",
   C3_queue_bound.2.1 2 ["a", "b"] "c" (by decide) (by decide)⟩

/-- C4 counterexample.  The claim says a failing entry is requeued exactly
once and, failing again, is not requeued a second time in the same
pipeline lifetime.  With a sink that always fails and capacity 50, the
single queued entry is requeued on the first failing tick and requeued
again on the second failing tick: it is still in the queue after both. -/
theorem C4_requeue_counterexample :
    process_post_queue 50 (fun (_ : String) => false) ["e"] = ["e"] ∧
    process_post_queue 50 (fun (_ : String) => false)
        (process_post_queue 50 (fun (_ : String) => false) ["e"]) = ["e"] ∧
    "e" ∈ process_post_queue 50 (fun (_ : String) => false)
        (process_post_queue 50 (fun (_ : String) => false) ["e"]) := by
  refine ⟨by decide, by decide, by decide⟩

/-- C4 (amended).  `process_post_queue` keeps no per-entry retry count: a
dequeued entry that fails to publish is re-appended exactly when the
queue after the pop is below capacity (and dropped otherwise), so a
repeatedly failing entry is re-attempted on every tick while capacity
allows — here, any number of failing ticks on a one-entry queue leaves
the entry queued. -/
theorem C4_requeue_policy (maxlen : ℕ) (publish_ok : String → Bool)
    (entry : String) (rest : List String) :
    (publish_ok entry = false →
      (rest.length < maxlen →
        process_post_queue maxlen publish_ok (entry :: rest) = rest ++ [entry]) ∧
      (¬ rest.length < maxlen →
        process_post_queue maxlen publish_ok (entry :: rest) = rest)) ∧
    (1 ≤ maxlen → ∀ n : ℕ,
      (process_post_queue maxlen (fun (_ : String) => false))^[n] [entry] = [entry]) := by
  constructor
  · intro hfail
    constructor
    · intro hroom
      simp [process_post_queue, hfail, hroom]
    · intro hfull
      simp [process_post_queue, hfail, hfull]
  · intro hcap n
    have h0 : 0 < maxlen := hcap
    induction n with
    | zero => rfl
    | succ n ih =>
      rw [Function.iterate_succ_apply', ih]
      simp [process_post_queue, h0]

/-- C4 witness: the amended retry policy at a concrete failing sink. -/
theorem C4_requeue_policy_witness :
    process_post_queue 50 (fun (_ : String) => false) ["e"] = [] ++ ["e"] ∧
    (process_post_queue 50 (fun (_ : String) => false))^[3] ["e"] = ["e"] :=
  ⟨((C4_requeue_policy 50 (fun _ => false) "e" []).1 rfl).1 (by decide),
   (C4_requeue_policy 50 (fun _ => false) "e" []).2 (by decide) 3⟩

/-- C9 counterexample.  Two summaryless items with equal non-trivial
titles: the pairwise similarity used for duplicate detection is the
title similarity scaled by `title_weight` (0.6 here), not the title
similarity alone (1 here). -/
theorem C9_title_fallback_counterexample :
    item_pair_similarity default_dedup_config
        ⟨"1", "abc def", "l1", "", "S1", "t", "g"⟩
        ⟨"2", "abc def", "l2", "", "S2", "t", "g"⟩ = 3/5 ∧
    calculate_similarity "abc def" "abc def" = 1 ∧
    ((3 : ℚ)/5 ≠ 1) := by
  refine ⟨by with_unfolding_all decide, by with_unfolding_all decide, by norm_num⟩

/-- C9 (amended).  When either item of a pair has no summary, the item
similarity of `find_duplicates` is `title_weight * similarity(titles)`
(the summary term contributes 0), rather than the full weighted
combination with a summary similarity, and also not the bare title
similarity. -/
theorem C9_no_summary_weighted_title (config : DedupConfig) (a b : NewsItem)
    (h : a.summary = "" ∨ b.summary = "") :
    item_pair_similarity config a b =
      calculate_similarity a.title b.title * config.title_weight := by
  unfold item_pair_similarity
  have hcond : ¬ (a.summary ≠ "" ∧ b.summary ≠ "") := by
    rcases h with h | h <;> simp [h]
  rw [if_neg hcond]
  ring

/-- C9 witness: the title-only weighting at a concrete summaryless pair. -/
theorem C9_no_summary_weighted_title_witness :
    item_pair_similarity default_dedup_config
        ⟨"1", "news one", "l1", "", "S1", "t", "g"⟩
        ⟨"2", "news two", "l2", "", "S2", "t", "g"⟩ =
      calculate_similarity "news one" "news two" * (3/5) :=
  C9_no_summary_weighted_title default_dedup_config _ _ (Or.inl rfl)

/-- C5 counterexample.  The claim says the urgency check returns `False`
for every input when the classifier errors on every call; but the lexical
fast path fires before any classifier call: for the input `("war", "")`,
`check_urgency` returns `True` even with an always-failing classifier and
an empty cache. -/
theorem C5_urgency_keyword_counterexample :
    check_urgency true (fun _ _ _ => none) (fun _ _ => none) "war" "" = true := by
  with_unfolding_all decide

/-- C5 (amended).  With an empty cache and a classifier that fails on
every call, `check_news_freshness` returns `True` for every input, and
`check_urgency` returns `False` for every input that does not match the
lexical urgency keyword list (keyword matches return `True` without
consulting the classifier). -/
theorem C5_fail_open (title content : String)
    (cache : String → String → String → Option String)
    (classifier : String → String → Option String)
    (hcache : ∀ t c k, cache t c k = none)
    (hclassifier : ∀ t c, classifier t c = none) :
    check_news_freshness true cache classifier title content = true ∧
    (urgency_keywords.any
        (fun k => pySubstr (pyLower k) (pyLower (title ++ " " ++ content))) = false →
      check_urgency true cache classifier title content = false) := by
  constructor
  · unfold check_news_freshness
    rw [hcache, hclassifier]
    simp only [Bool.not_true, Bool.false_eq_true, if_false]
    split <;> rfl
  · intro hkw
    unfold check_urgency
    simp only [hcache, hclassifier, hkw]
    simp

/-- C5 witness: fail-open at a concrete keyword-free input. -/
theorem C5_fail_open_witness :
    check_news_freshness true (fun _ _ _ => none) (fun _ _ => none) "hello" "" = true ∧
    check_urgency true (fun _ _ _ => none) (fun _ _ => none) "hello" "" = false := by
  have h := C5_fail_open "hello" "" (fun _ _ _ => none) (fun _ _ => none)
    (fun _ _ _ => rfl) (fun _ _ => rfl)
  exact ⟨h.1, h.2 (by with_unfolding_all decide)⟩

/-- Lower bound of the unclamped importance score: the positive terms are
nonnegative and the two penalties total 0.8. -/
theorem raw_score_lower_bound (full_text : String) (content_length : ℕ) :
    -(4/5 : ℚ) ≤ importance_raw_score full_text content_length := by
  unfold importance_raw_score
  have h1 : (0:ℚ) ≤
      (if 0 < count_matches critical_keywords full_text then
        (if 2 ≤ count_matches critical_keywords full_text then 1/2 + 1/5 else 1/2)
      else 0) := by
    split_ifs <;> norm_num
  have h2 : (0:ℚ) ≤ (if 0 < count_matches ru_ua_keywords full_text then 2/5 else 0) := by
    split_ifs <;> norm_num
  have h3 : (if 3 ≤ count_matches uninteresting_us_keywords full_text then (1/2:ℚ) else 0) ≤ 1/2 ∧
      (0:ℚ) ≤ (if 3 ≤ count_matches uninteresting_us_keywords full_text then (1/2:ℚ) else 0) := by
    constructor <;> split_ifs <;> norm_num
  have h4 : (if 2 ≤ count_matches family_keywords full_text then (3/10:ℚ) else 0) ≤ 3/10 ∧
      (0:ℚ) ≤ (if 2 ≤ count_matches family_keywords full_text then (3/10:ℚ) else 0) := by
    constructor <;> split_ifs <;> norm_num
  have h5 : (0:ℚ) ≤ (if 0 < count_matches high_priority_keywords full_text then 3/10 else 0) := by
    split_ifs <;> norm_num
  have h6 : (0:ℚ) ≤ (if 0 < count_matches important_entities full_text then 1/5 else 0) := by
    split_ifs <;> norm_num
  have h7 : (0:ℚ) ≤ (if 0 < count_matches importance_numbers full_text then 1/10 else 0) := by
    split_ifs <;> norm_num
  have h8 : (0:ℚ) ≤ (if 500 < content_length then (1/10:ℚ) else 0) := by
    split_ifs <;> norm_num
  have h9 : (0:ℚ) ≤
      (if breaking_markers.any (fun w => pySubstr w full_text) = true then (1/5:ℚ) else 0) := by
    split_ifs <;> norm_num
  linarith [h3.1, h3.2, h4.1, h4.2]

/-- C6 counterexample.  The claim says the importance score lies in
`[0, 1]`; the code clamps only from above (`min(score, 1.0)`), and the
input `("wedding divorce wife", "")` hits the low-interest (−0.5) and
family (−0.3) penalties with no positive term: the returned score is
−0.8. -/
theorem C6_negative_score_counterexample :
    (analyze_importance "wedding divorce wife" "").score = -(4/5) ∧
    (analyze_importance "wedding divorce wife" "").score < 0 := by
  constructor
  · with_unfolding_all decide
  · with_unfolding_all decide

/-- C6 (amended).  The score returned by `analyze_importance` is clamped
from above at 1 but not from below at 0: for every input it lies in
`[-0.8, 1]`, where −0.8 is the sum of the two negative adjustments. -/
theorem C6_score_bounds (title content : String) :
    -(4/5 : ℚ) ≤ (analyze_importance title content).score ∧
    (analyze_importance title content).score ≤ 1 := by
  rw [show (analyze_importance title content).score =
    min (importance_raw_score (pyLower (title ++ " " ++ content)) content.length) 1 from rfl]
  refine ⟨le_min (raw_score_lower_bound _ _) (by norm_num), min_le_right _ _⟩

/-- C7.  The contract (and the function's own `-> int` annotation) says
`get_adaptive_length` returns an int; for a high-importance item (for
example the single-critical-keyword title `"fire"`) and `base_length`
333, the code computes `min(333 * 1.5, 900) = 499.5`, a non-integer
float. -/
theorem C7_adaptive_length_not_integer :
    (analyze_importance "fire" "").category = "high" ∧
    get_adaptive_length (analyze_importance "fire" "") 333 = 999/2 ∧
    ¬ ∃ n : ℤ, ((999 : ℚ)/2 = (n : ℚ)) := by
  refine ⟨by with_unfolding_all decide, by with_unfolding_all decide, ?_⟩
  rintro ⟨n, hn⟩
  have h2 : (999 : ℚ) = 2 * (n : ℚ) := by linarith
  have h3 : (999 : ℤ) = 2 * n := by exact_mod_cast h2
  omega

/-- C8 counterexample.  The text-similarity function is not symmetric:
difflib's matcher is direction-dependent, and on the pair
`("a a", "aab cab")` (whose key-phrase sets are empty on the first text,
so the function returns the bare sequence ratio) the two orders give 3/5
and 2/5. -/
theorem C8_similarity_asymmetry_counterexample :
    calculate_similarity "a a" "aab cab" = 3/5 ∧
    calculate_similarity "aab cab" "a a" = 2/5 ∧
    calculate_similarity "a a" "aab cab" ≠ calculate_similarity "aab cab" "a a" := by
  have h1 : calculate_similarity "a a" "aab cab" = 3/5 := by with_unfolding_all decide
  have h2 : calculate_similarity "aab cab" "a a" = 2/5 := by with_unfolding_all decide
  refine ⟨h1, h2, ?_⟩
  rw [h1, h2]
  norm_num

/-- C8 (amended).  The 0.7-weighted Jaccard component is symmetric, so the
similarity is symmetric on every pair on which the underlying sequence
ratio is: whenever
`ratio(norm A, norm B) = ratio(norm B, norm A)`, the combined similarity
satisfies `similarity(A, B) = similarity(B, A)` (the counterexample shows
the hypothesis is not vacuous: without it symmetry fails). -/
theorem C8_similarity_symm_of_seq_symm (text1 text2 : String)
    (h : seqMatchScore (normalize_text text1) (normalize_text text2) =
         seqMatchScore (normalize_text text2) (normalize_text text1)) :
    calculate_similarity text1 text2 = calculate_similarity text2 text1 := by
  simp only [calculate_similarity]
  by_cases h1 : text1 = "" ∨ text2 = ""
  · rw [if_pos h1, if_pos h1.symm]
  · have h1' : ¬(text2 = "" ∨ text1 = "") := fun hc => h1 hc.symm
    rw [if_neg h1, if_neg h1']
    by_cases h2 : normalize_text text1 = "" ∨ normalize_text text2 = ""
    · rw [if_pos h2, if_pos h2.symm]
    · have h2' : ¬(normalize_text text2 = "" ∨ normalize_text text1 = "") :=
        fun hc => h2 hc.symm
      rw [if_neg h2, if_neg h2']
      by_cases h3 : (extract_key_phrases text1).toFinset = ∅ ∨
          (extract_key_phrases text2).toFinset = ∅
      · rw [if_pos h3, if_pos h3.symm]
        exact h
      · have h3' : ¬((extract_key_phrases text2).toFinset = ∅ ∨
            (extract_key_phrases text1).toFinset = ∅) := fun hc => h3 hc.symm
        rw [if_neg h3, if_neg h3']
        rw [h, Finset.inter_comm, Finset.union_comm]

/-- C8 witness: symmetry under the proved hypothesis at a concrete pair
whose sequence ratio happens to be symmetric. -/
theorem C8_similarity_symm_witness :
    calculate_similarity "abc" "abd" = calculate_similarity "abd" "abc" :=
  C8_similarity_symm_of_seq_symm "abc" "abd" (by with_unfolding_all decide)

/-- The selection loop emits at most `max_sources - used` items. -/
theorem select_go_length_le (m : ℕ) (g : String → List NewsItem) :
    ∀ (l : List String) (used : ℕ), (select_go m g l used).length ≤ m - used := by
  intro l
  induction l with
  | nil => intro used; simp [select_go]
  | cons s rest ih =>
    intro used
    rw [select_go]
    split
    · simp
    · rename_i hused
      split
      · exact ih used
      · simp only [List.length_cons]
        have := ih (used + 1)
        omega

/-- The sources of the selected items form a sublist of the walked source
list, provided every group's items carry that group's source. -/
theorem select_go_sources_sublist (m : ℕ) (g : String → List NewsItem)
    (hg : ∀ s : String, ∀ it ∈ g s, it.source = s) :
    ∀ (l : List String) (used : ℕ),
      ((select_go m g l used).map (fun it => it.source)).Sublist l := by
  intro l
  induction l with
  | nil => intro used; simp [select_go]
  | cons s rest ih =>
    intro used
    rw [select_go]
    split
    · simp
    · split
      · exact (ih used).cons s
      · rename_i item tl heq
        simp only [List.map_cons]
        have hsrc : item.source = s := hg s item (by rw [heq]; exact List.mem_cons_self _ _)
        rw [hsrc]
        exact (ih (used + 1)).cons₂ s

/-- The first-occurrence fold keeps its accumulator duplicate-free. -/
theorem foldl_first_occurrence_nodup :
    ∀ (l acc : List String), acc.Nodup →
      (l.foldl (fun acc s => if s ∈ acc then acc else acc ++ [s]) acc).Nodup := by
  intro l
  induction l with
  | nil => intro acc h; exact h
  | cons x xs ih =>
    intro acc h
    simp only [List.foldl_cons]
    apply ih
    by_cases hx : x ∈ acc
    · rw [if_pos hx]; exact h
    · rw [if_neg hx, List.nodup_append]
      refine ⟨h, List.nodup_singleton x, ?_⟩
      intro a ha hb
      rw [List.mem_singleton] at hb
      exact hx (hb ▸ ha)

/-- Grouping keys are duplicate-free. -/
theorem first_occurrence_keys_nodup (l : List String) :
    (first_occurrence_keys l).Nodup :=
  foldl_first_occurrence_nodup l [] List.nodup_nil

/-- Stable descending insertion is a permutation of consing. -/
theorem insert_desc_perm (pr : String → ℤ) (x : String) :
    ∀ l : List String, List.Perm (insert_desc pr x l) (x :: l) := by
  intro l
  induction l with
  | nil => simp [insert_desc]
  | cons y ys ih =>
    rw [insert_desc]
    split
    · exact (ih.cons y).trans (List.Perm.swap x y ys)
    · exact List.Perm.refl _

/-- The insertion-sort fold permutes its input. -/
theorem sort_foldl_perm (pr : String → ℤ) :
    ∀ (l acc : List String),
      List.Perm (l.foldl (fun a x => insert_desc pr x a) acc) (acc ++ l) := by
  intro l
  induction l with
  | nil => intro acc; simp
  | cons x xs ih =>
    intro acc
    simp only [List.foldl_cons]
    refine (ih (insert_desc pr x acc)).trans ?_
    refine (List.Perm.append_right xs (insert_desc_perm pr x acc)).trans ?_
    exact List.perm_middle.symm

/-- The stable descending sort permutes its input. -/
theorem sort_by_priority_desc_perm (pr : String → ℤ) (l : List String) :
    List.Perm (sort_by_priority_desc pr l) l := by
  have h := sort_foldl_perm pr l []
  simpa [sort_by_priority_desc] using h

/-- C2.  The priority selector emits at most `max_sources_per_cycle` items
and no two emitted items share a source. -/
theorem C2_selector_bound (config : PriorityConfig) (items : List NewsItem) :
    (select_items_by_priority config items).length ≤ config.max_sources_per_cycle ∧
    ((select_items_by_priority config items).map (fun it => it.source)).Nodup := by
  simp only [select_items_by_priority]
  have hg : ∀ s : String, ∀ it ∈ items.filter (fun it => it.source == s),
      it.source = s := by
    intro s it hit
    rw [List.mem_filter] at hit
    exact eq_of_beq hit.2
  constructor
  · have h := select_go_length_le config.max_sources_per_cycle
      (fun s => items.filter (fun it => it.source == s))
      (sort_by_priority_desc (get_source_priority config)
        (first_occurrence_keys (items.map (fun it => it.source)))) 0
    simpa using h
  · have hkeys : (first_occurrence_keys (items.map (fun it => it.source))).Nodup :=
      first_occurrence_keys_nodup _
    have hsorted : (sort_by_priority_desc (get_source_priority config)
        (first_occurrence_keys (items.map (fun it => it.source)))).Nodup :=
      ((sort_by_priority_desc_perm _ _).nodup_iff).mpr hkeys
    exact List.Sublist.nodup (select_go_sources_sublist _ _ hg _ 0) hsorted

/-- Lemma: `find_duplicates_go` yields one result per input entry. -/
theorem find_duplicates_go_length (config : DedupConfig) (items : List NewsItem) :
    ∀ (l : List (ℕ × NewsItem)) (seen : List String),
      (find_duplicates_go config items l seen).length = l.length := by
  intro l
  induction l with
  | nil => intro seen; rfl
  | cons p rest ih =>
    intro seen
    obtain ⟨i, item⟩ := p
    simp only [find_duplicates_go]
    split
    · simp [ih]
    · split
      · simp [ih]
      · simp [ih]

/-- Lemma: `find_duplicates` yields one result per item. -/
theorem find_duplicates_length (config : DedupConfig) (items : List NewsItem) :
    (find_duplicates config items).length = items.length := by
  unfold find_duplicates
  rw [find_duplicates_go_length]
  exact List.enum_length

/-- Projecting the matching filtered zip entries yields a sublist. -/
theorem zip_filter_fst_sublist {α β : Type _} (p : α × β → Bool) :
    ∀ (l : List α) (r : List β), (((l.zip r).filter p).map Prod.fst).Sublist l := by
  intro l
  induction l with
  | nil => intro r; simp
  | cons a l ih =>
    intro r
    cases r with
    | nil => simp
    | cons b r =>
      rw [List.zip_cons_cons, List.filter_cons]
      split
      · simp only [List.map_cons]
        exact (ih r).cons₂ a
      · exact (ih r).cons a

/-- Splitting a zip of equal-length lists by a flag on the second component
partitions the first list. -/
theorem zip_partition_perm {α β : Type _} (p : α × β → Bool) :
    ∀ (l : List α) (r : List β), l.length = r.length →
      List.Perm ((((l.zip r).filter (fun x => !p x)).map Prod.fst) ++
        (((l.zip r).filter p).map Prod.fst)) l := by
  intro l
  induction l with
  | nil => intro r h; simp
  | cons a l ih =>
    intro r h
    cases r with
    | nil => simp at h
    | cons b r =>
      simp only [List.zip_cons_cons, List.filter_cons]
      by_cases hp : p (a, b) = true
      · rw [if_neg (by simp [hp]), if_pos hp]
        simp only [List.map_cons]
        exact List.perm_middle.trans ((ih r (by simpa using h)).cons a)
      · rw [if_pos (by simp [hp]), if_neg hp]
        simp only [List.map_cons, List.cons_append]
        exact (ih r (by simpa using h)).cons a

/-- C10.  `filter_duplicates` partitions its input: the unique and
duplicate lists are order-preserving sublists of the batch, and together
they are a permutation of it (no item dropped or duplicated). -/
theorem C10_filter_duplicates_partition (config : DedupConfig) (items : List NewsItem) :
    ((filter_duplicates config items).1).Sublist items ∧
    ((filter_duplicates config items).2).Sublist items ∧
    List.Perm ((filter_duplicates config items).1 ++ (filter_duplicates config items).2)
      items := by
  by_cases hnil : items = []
  · subst hnil
    simp [filter_duplicates]
  · simp only [filter_duplicates, if_neg hnil]
    refine ⟨zip_filter_fst_sublist _ items _, zip_filter_fst_sublist _ items _, ?_⟩
    exact zip_partition_perm (fun x => x.2.is_duplicate) items
      (find_duplicates config items) (find_duplicates_length config items).symm

end FapNews
